import Mathlib

/-!
Verification of the SideKick multi-provider chat orchestration layer
(`functions/src/chat.ts`) against its natural-language specification.

The TypeScript source is shallowly embedded: every outbound I/O action
(HTTP fetch, provider SDK call, Firestore read/write) is represented by an
oracle function supplied in an environment record, JavaScript exceptions
are represented with `Except`, and the observable side effects of the
orchestrator (provider dispatch, persistence writes, usage-counter
increments) are collected in an explicit effect trace.
-/

deriving instance DecidableEq for Except

namespace SideKick

/-- JS `url.startsWith('https://')`, written over the character list so
that concrete instances evaluate inside the kernel. -/
def urlIsHttps (s : String) : Bool := s.data.take 8 == "https://".data

/-- One attached image: `{url, mimeType, fileSize}` as used in `chat.ts`.
A missing `url` field in JS is modelled as the empty string. -/
structure Image where
  url : String
  mimeType : String
  fileSize : Nat
deriving DecidableEq, Repr

/-- One attached file: `{url, fileName, mimeType, fileSize}`. -/
structure FileRef where
  url : String
  fileName : String
  mimeType : String
  fileSize : Nat
deriving DecidableEq, Repr

/-- One conversation turn as built by `sendMessageV2`: `role`, `content`,
optional `images` and `files` arrays.  A JS message without the optional
array is modelled by the empty list (the code always guards with
`msg.images && msg.images.length > 0`). -/
structure Msg where
  role : String
  content : String
  images : List Image := []
  files : List FileRef := []
deriving DecidableEq, Repr

/-- Token usage object in provider responses and `DispatchResult`
(`prompt_tokens`, `completion_tokens`, `total_tokens`). -/
structure Usage where
  prompt_tokens : Nat
  completion_tokens : Nat
  total_tokens : Nat
deriving DecidableEq, Repr

/-- The all-zero usage object the adapters fall back to. -/
def zeroUsage : Usage := ⟨0, 0, 0⟩

/-- Uniform adapter result `{content, usage}`.  `usage` is an `Option`
because some adapters (DeepSeek, OpenAI chat completions) forward the
provider's `data.usage` field verbatim, which may be `undefined`. -/
structure DispatchResult where
  content : String
  usage : Option Usage
deriving DecidableEq, Repr

/-- Outcome of a JS `fetch` call: either the promise rejects with an error
message (network failure), or it resolves to a response with `ok`,
`status`, and a byte body. -/
inductive FetchOutcome where
  | err (msg : String)
  | resp (ok : Bool) (status : Nat) (bytes : List Nat)
deriving DecidableEq, Repr

/-- One worksheet as returned by `node-xlsx`: a name and rows of cells. -/
structure Sheet where
  name : String
  data : List (List String)
deriving DecidableEq, Repr

/-- Oracle environment for `extractFileContent`: the outbound fetch and the
third-party parsing libraries (`pdf-parse`, `mammoth`, `node-xlsx`) and
UTF-8 decoding, each of which may reject. -/
structure ExtractEnv where
  fetch : String → FetchOutcome
  pdfParse : List Nat → Except String String
  wordParse : List Nat → Except String String
  xlsxParse : List Nat → Except String (List Sheet)
  utf8Decode : List Nat → String

/-- `extractPdfContent`: wraps `pdf-parse`; any parse failure is rethrown
as `Failed to extract PDF content`. -/
def extractPdfContent (env : ExtractEnv) (data : List Nat) : Except String String :=
  match env.pdfParse data with
  | .ok t => .ok t
  | .error _ => .error "Failed to extract PDF content"

/-- `extractWordContent`: wraps `mammoth.extractRawText`; any parse failure
is rethrown as `Failed to extract Word document content`. -/
def extractWordContent (env : ExtractEnv) (data : List Nat) : Except String String :=
  match env.wordParse data with
  | .ok t => .ok t
  | .error _ => .error "Failed to extract Word document content"

/-- Renders one sheet as in `extractExcelContent`: a `Sheet: <name>` header,
rows joined by tabs, one row per line, then a blank line. -/
def sheetText (s : Sheet) : String :=
  "Sheet: " ++ s.name ++ "\n" ++ String.join (s.data.map (fun row => String.intercalate "\t" row ++ "\n")) ++ "\n"

/-- `extractExcelContent`: wraps `node-xlsx`; per-sheet, per-row tab-joined
text; any parse failure is rethrown as `Failed to extract Excel content`. -/
def extractExcelContent (env : ExtractEnv) (data : List Nat) : Except String String :=
  match env.xlsxParse data with
  | .ok sheets => .ok (String.join (sheets.map sheetText))
  | .error _ => .error "Failed to extract Excel content"

/-- The placeholder returned when extraction fails with error message `m`. -/
def extractionFailedPlaceholder (fileName m : String) : String :=
  "[File: " ++ fileName ++ " - Content extraction failed: " ++ m ++ "]"

/-- The placeholder returned for an unsupported mime type. -/
def unsupportedMimePlaceholder (fileName mimeType : String) : String :=
  "[File: " ++ fileName ++ " - Content extraction not supported for " ++ mimeType ++ "]"

/-- The mime types `extractFileContent` dispatches on (its `switch` cases). -/
def supportedMimeTypes : List String :=
  ["application/pdf",
   "application/vnd.openxmlformats-officedocument.wordprocessingml.document",
   "application/msword",
   "application/vnd.openxmlformats-officedocument.spreadsheetml.sheet",
   "application/vnd.ms-excel",
   "text/plain", "text/markdown", "application/json", "text/csv"]

/-- The body of `extractFileContent`'s `try` block: fetch the file, throw
on a non-ok response, then dispatch on the mime type. -/
def extractFileContentTry (env : ExtractEnv) (fileUrl fileName mimeType : String) : Except String String :=
  match env.fetch fileUrl with
  | .err m => .error m
  | .resp ok status bytes =>
    if !ok then .error ("Failed to fetch file: " ++ toString status)
    else
      match mimeType with
      | "application/pdf" => extractPdfContent env bytes
      | "application/vnd.openxmlformats-officedocument.wordprocessingml.document"
      | "application/msword" => extractWordContent env bytes
      | "application/vnd.openxmlformats-officedocument.spreadsheetml.sheet"
      | "application/vnd.ms-excel" => extractExcelContent env bytes
      | "text/plain" | "text/markdown" | "application/json" | "text/csv" =>
        .ok (env.utf8Decode bytes)
      | _ => .ok (unsupportedMimePlaceholder fileName mimeType)

/-- `extractFileContent(fileUrl, fileName, mimeType)`: always returns a
string; any exception from the `try` block is converted into a bracketed
failure placeholder by the surrounding `catch`. -/
def extractFileContent (env : ExtractEnv) (fileUrl fileName mimeType : String) : String :=
  match extractFileContentTry env fileUrl fileName mimeType with
  | .ok s => s
  | .error m => extractionFailedPlaceholder fileName m

/-! ## OpenAI chat-completions adapter (`callOpenAIChatCompletions`) -/

/-- One element of an OpenAI-style `content` array. -/
inductive OAIPart where
  | text (t : String)
  | image_url (url : String) (detail : String)
deriving DecidableEq, Repr

/-- OpenAI message content: either a plain string or a parts array. -/
inductive OAIContent where
  | plain (s : String)
  | parts (ps : List OAIPart)
deriving DecidableEq, Repr

/-- A message in the OpenAI request payload. -/
structure OAIMsg where
  role : String
  content : OAIContent
deriving DecidableEq, Repr

/-- The image-to-content-part conversion inside `callOpenAIChatCompletions`:
an image whose `url` does not start with `https://` is logged with
`console.error` and skipped (the forEach callback returns early); every
other image becomes `{type: image_url, image_url: {url, detail: auto}}`. -/
def openAIImageParts (images : List Image) : List OAIPart :=
  images.filterMap (fun image =>
    if !(urlIsHttps image.url) then none
    else some (OAIPart.image_url image.url "auto"))

/-- Per-message conversion in `callOpenAIChatCompletions`: a message with
images becomes a content array (text part first when `content` is truthy,
then the surviving image parts); a message without images passes through
with its plain string content. -/
def openAIChatMessage (msg : Msg) : OAIMsg :=
  if msg.images = [] then ⟨msg.role, .plain msg.content⟩
  else
    ⟨msg.role, .parts ((if msg.content = "" then [] else [OAIPart.text msg.content]) ++
      openAIImageParts msg.images)⟩

/-- Oracle for `openai.chat.completions.create`: given the request
messages, the call either rejects or yields
`choices[0].message.content` (possibly null) and the `usage` field. -/
structure ChatCompletionsEnv where
  create : List OAIMsg → Except String (Option String × Option Usage)

/-- `callOpenAIChatCompletions(model, messages)`: map every message, POST
once, and return `{content: content || '', usage: completion.usage}` —
the provider usage object is forwarded verbatim. -/
def callOpenAIChatCompletions (env : ChatCompletionsEnv) (msgs : List Msg) :
    Except String DispatchResult :=
  let openaiMessages := msgs.map openAIChatMessage
  match env.create openaiMessages with
  | .error e => .error e
  | .ok (content, usage) => .ok ⟨content.getD "", usage⟩

/-! ## Anthropic adapter (`callAnthropic`) -/

/-- One element of an Anthropic `content` array. -/
inductive AnthPart where
  | text (t : String)
  | image (url : String)
deriving DecidableEq, Repr

/-- Anthropic message content: plain string or parts array. -/
inductive AnthContent where
  | plain (s : String)
  | parts (ps : List AnthPart)
deriving DecidableEq, Repr

/-- A message in the Anthropic request body. -/
structure AnthMsg where
  role : String
  content : AnthContent
deriving DecidableEq, Repr

/-- The `usage` object of an Anthropic response; either count may be
absent. -/
structure AnthUsageReport where
  input_tokens : Option Nat
  output_tokens : Option Nat
deriving DecidableEq, Repr

/-- Parsed JSON body of an Anthropic response: the `text` of each content
block, and the optional usage report. -/
structure AnthData where
  contentTexts : List String
  usage : Option AnthUsageReport
deriving DecidableEq, Repr

/-- Oracle for the Anthropic HTTP POST: takes the separated `system` field
and the converted messages; rejects on network error, otherwise returns
`(ok, status, statusText, parsed body)`. -/
structure AnthropicEnv where
  post : Option String → List AnthMsg → Except String (Bool × Nat × String × AnthData)

/-- Per-message conversion in `callAnthropic`: messages with images become
a parts array (text part when `content` is truthy, then every image as
`{type: image, source: {type: url, url}}` — no https check here). -/
def anthropicMessage (msg : Msg) : AnthMsg :=
  if msg.images = [] then ⟨msg.role, .plain msg.content⟩
  else
    ⟨msg.role, .parts ((if msg.content = "" then [] else [AnthPart.text msg.content]) ++
      msg.images.map (fun image => AnthPart.image image.url))⟩

/-- `callAnthropic(model, messages)`: the first system turn is moved into
the separate `system` field, the rest are converted and POSTed once;
non-ok responses throw; usage is rebuilt with
`input_tokens || 0`, `output_tokens || 0`, and their sum as
`total_tokens`. -/
def callAnthropic (env : AnthropicEnv) (msgs : List Msg) : Except String DispatchResult :=
  let systemMessage := msgs.find? (fun m => m.role == "system")
  let conversationMessages := msgs.filter (fun m => m.role != "system")
  let anthropicMessages := conversationMessages.map anthropicMessage
  match env.post (systemMessage.map (·.content)) anthropicMessages with
  | .error e => .error e
  | .ok (ok, status, statusText, data) =>
    if !ok then .error ("Anthropic API error: " ++ toString status ++ " " ++ statusText)
    else
      .ok ⟨(data.contentTexts.head?).getD "No response",
           some ⟨(data.usage.bind (·.input_tokens)).getD 0,
                 (data.usage.bind (·.output_tokens)).getD 0,
                 (data.usage.bind (·.input_tokens)).getD 0 +
                   (data.usage.bind (·.output_tokens)).getD 0⟩⟩

/-! ## DeepSeek and Perplexity adapters -/

/-- Parsed JSON of an OpenAI-compatible chat-completions response:
`choices[i].message.content` and the optional `usage` object. -/
structure OAIStyleData where
  choices : List String
  usage : Option Usage
deriving DecidableEq, Repr

/-- Oracle for the DeepSeek HTTP POST (the code never checks
`response.ok`, so only the parsed body is relevant). -/
structure DeepSeekEnv where
  post : List Msg → Except String OAIStyleData

/-- `callDeepSeek(model, messages)`: POST the message array as-is, read
`data.choices[0].message.content` without any guard (a missing choice is
a thrown TypeError), and forward `data.usage` verbatim. -/
def callDeepSeek (env : DeepSeekEnv) (msgs : List Msg) : Except String DispatchResult :=
  match env.post msgs with
  | .error e => .error e
  | .ok data =>
    match data.choices.head? with
    | none => .error "Cannot read properties of undefined (reading 'message')"
    | some c => .ok ⟨c, data.usage⟩

/-- Oracle for the Perplexity HTTP POST: rejects on network error,
otherwise `(ok, status, statusText, raw body text, parsed body)`. -/
structure PerplexityEnv where
  post : List Msg → Except String (Bool × Nat × String × String × OAIStyleData)

/-- `callPerplexity(model, messages)`: POST once; non-ok responses throw
with status and body text; content falls back to `No response` and usage
to the all-zero object when absent. -/
def callPerplexity (env : PerplexityEnv) (msgs : List Msg) : Except String DispatchResult :=
  match env.post msgs with
  | .error e => .error e
  | .ok (ok, status, statusText, bodyText, data) =>
    if !ok then
      .error ("Perplexity API error: " ++ toString status ++ " " ++ statusText ++ " - " ++ bodyText)
    else .ok ⟨(data.choices.head?).getD "No response", some (data.usage.getD zeroUsage)⟩

/-! ## Google adapter (`callGoogle`) -/

/-- One part of a Google `generateContent` request: a text part or inline
base64 image data. -/
inductive GPart where
  | text (t : String)
  | inlineData (dataB64 : String) (mimeType : String)
deriving DecidableEq, Repr

/-- Oracle for the Google adapter: the per-image fetch (+`arrayBuffer`),
base64 encoding, and the two `generateContent` entry points (parts array
for the multimodal branch, prompt string for the text branch). -/
structure GoogleEnv where
  fetchImage : String → Except String (List Nat)
  base64 : List Nat → String
  generateMultimodal : List GPart → Except String String
  generateText : String → Except String String

/-- Model-name mapping at the top of `callGoogle` (only
`gemini-1.5-pro-latest` is actually rewritten). -/
def googleApiModel (model : String) : String :=
  if model == "gemini-1.5-pro-latest" then "gemini-1.5-pro" else model

/-- The parts array built in the multimodal branch of `callGoogle`: the
final turn's text (when truthy) followed by one inline-data part per image
of that turn whose fetch succeeded; a failed fetch is logged and the image
skipped. -/
def googleParts (env : GoogleEnv) (lastMessage : Msg) : List GPart :=
  (if lastMessage.content = "" then [] else [GPart.text lastMessage.content]) ++
  lastMessage.images.filterMap (fun image =>
    match env.fetchImage image.url with
    | .error _ => none
    | .ok bytes => some (GPart.inlineData (env.base64 bytes) image.mimeType))

/-- The prompt built in the text-only branch of `callGoogle`: optional
`Context:` line from the first system turn, then `role: content` lines
(assistant rendered as `model`, everything else as `user`). -/
def googleTextPrompt (msgs : List Msg) : String :=
  let conversationMessages := msgs.filter (fun m => m.role != "system")
  (match msgs.find? (fun m => m.role == "system") with
   | some s => "Context: " ++ s.content ++ "\n\n"
   | none => "") ++
  String.intercalate "\n" (conversationMessages.map (fun m =>
    (if m.role == "assistant" then "model" else "user") ++ ": " ++ m.content))

/-- `callGoogle(model, messages)`.  The second component counts
`generateContent` calls.  When any turn carries images, the request is
built from the final turn only; an empty message list would crash in JS
(`messages[messages.length-1]` is undefined), modelled as a thrown
TypeError. -/
def callGoogle (env : GoogleEnv) (msgs : List Msg) : Except String DispatchResult × Nat :=
  if msgs.any (fun m => !m.images.isEmpty) then
    match msgs.getLast? with
    | none => (.error "Cannot read properties of undefined (reading 'content')", 0)
    | some lastMessage =>
      match env.generateMultimodal (googleParts env lastMessage) with
      | .error e => (.error e, 1)
      | .ok text => (.ok ⟨text, some zeroUsage⟩, 1)
  else
    match env.generateText (googleTextPrompt msgs) with
    | .error e => (.error e, 1)
    | .ok text => (.ok ⟨text, some zeroUsage⟩, 1)

/-! ## OpenAI Assistants adapter (`callOpenAIWithAssistants`) -/

/-- Observable side effects of the two OpenAI file paths, in order of
occurrence.  Deletion effects are recorded only when the corresponding
API call succeeds. -/
inductive AsstEffect where
  | uploadedFile (id : String)
  | createdAssistant (id : String)
  | createdThread (id : String)
  | addedMessage
  | startedRun (id : String)
  | deletedAssistant (id : String)
  | deletedFile (id : String)
deriving DecidableEq, Repr

/-- An entry of the `uploadedFiles` array. -/
structure UploadedFile where
  id : String
  name : String
  originalFile : FileRef
deriving DecidableEq, Repr

/-- Oracle for the Assistants path: file download and `files.create`,
assistant/thread/message/run creation, the run status observed when the
poll loop exits, the first assistant-authored thread message (its text, if
any), and the two deletion endpoints. -/
structure AsstEnv where
  download : String → FetchOutcome
  fileCreate : List Nat → Except String String
  assistantCreate : Except String String
  threadCreate : Except String String
  messageCreate : Except String Unit
  runCreate : Except String String
  finalRunStatus : Except String String
  listAssistantText : Except String (Option String)
  assistantDelete : Except String Unit
  fileDelete : String → Except String Unit

/-- Step 1 body for one file: download it (throwing
`Failed to download file: <status>` on a non-ok response) and upload the
bytes with `openai.files.create`, yielding the provider file id. -/
def uploadOneFile (env : AsstEnv) (f : FileRef) : Except String String :=
  match env.download f.url with
  | .err m => .error m
  | .resp ok status bytes =>
    if !ok then .error ("Failed to download file: " ++ toString status)
    else env.fileCreate bytes

/-- Step 1 loop: upload every referenced file in order; the first failure
aborts the loop, keeping the upload effects that already happened. -/
def uploadFiles (env : AsstEnv) :
    List FileRef → Except String (List UploadedFile) × List AsstEffect
  | [] => (.ok [], [])
  | f :: fs =>
    match uploadOneFile env f with
    | .error e => (.error e, [])
    | .ok id =>
      match uploadFiles env fs with
      | (.ok rest, effs) => (.ok (⟨id, f.fileName, f⟩ :: rest), .uploadedFile id :: effs)
      | (.error e, effs) => (.error e, .uploadedFile id :: effs)

/-- Step 4 loop: one `threads.messages.create` per non-system turn (the
attachments array is resolved by file-name lookup and cannot fail). -/
def addThreadMessages (env : AsstEnv) : List Msg → Except String Unit × List AsstEffect
  | [] => (.ok (), [])
  | _ :: ms =>
    match env.messageCreate with
    | .error e => (.error e, [])
    | .ok _ =>
      match addThreadMessages env ms with
      | (r, effs) => (r, .addedMessage :: effs)

/-- The cleanup loop of the Assistants path: sequential `files.delete`
calls with **no** try/catch — the first failure propagates and the
remaining files are not deleted. -/
def deleteUploadedFiles (env : AsstEnv) :
    List UploadedFile → Except String Unit × List AsstEffect
  | [] => (.ok (), [])
  | u :: us =>
    match env.fileDelete u.id with
    | .error e => (.error e, [])
    | .ok _ =>
      match deleteUploadedFiles env us with
      | (r, effs) => (r, .deletedFile u.id :: effs)

/-- `callOpenAIWithAssistants(model, messages)`: the five-step protocol.
Returns `ok none` when the run completes but no assistant text message is
found (the JS function falls off the end of its `try` block and returns
`undefined`).  Cleanup (assistant + file deletion) runs only on the
completed-with-text path, directly before the return; its failures
propagate.  The surrounding `catch` only logs and rethrows. -/
def callOpenAIWithAssistants (env : AsstEnv) (msgs : List Msg) :
    Except String (Option DispatchResult) × List AsstEffect :=
  match uploadFiles env ((msgs.map (·.files)).flatten) with
  | (.error e, effs) => (.error e, effs)
  | (.ok uploadedFiles, effs0) =>
  match env.assistantCreate with
  | .error e => (.error e, effs0)
  | .ok assistantId =>
  let effs1 := effs0 ++ [.createdAssistant assistantId]
  match env.threadCreate with
  | .error e => (.error e, effs1)
  | .ok threadId =>
  let effs2 := effs1 ++ [.createdThread threadId]
  match addThreadMessages env (msgs.filter (fun m => m.role != "system")) with
  | (.error e, effsM) => (.error e, effs2 ++ effsM)
  | (.ok _, effsM) =>
  let effs3 := effs2 ++ effsM
  match env.runCreate with
  | .error e => (.error e, effs3)
  | .ok runId =>
  let effs4 := effs3 ++ [.startedRun runId]
  match env.finalRunStatus with
  | .error e => (.error e, effs4)
  | .ok status =>
  if status = "completed" then
    match env.listAssistantText with
    | .error e => (.error e, effs4)
    | .ok none => (.ok none, effs4)
    | .ok (some text) =>
      match env.assistantDelete with
      | .error e => (.error e, effs4)
      | .ok _ =>
        let effs5 := effs4 ++ [.deletedAssistant assistantId]
        match deleteUploadedFiles env uploadedFiles with
        | (.error e, effsD) => (.error e, effs5 ++ effsD)
        | (.ok _, effsD) => (.ok (some ⟨text, some zeroUsage⟩), effs5 ++ effsD)
  else (.error ("Assistant run failed: " ++ status), effs4)

/-! ## OpenAI files+images hybrid path (`callOpenAIWithFilesAndImages`) -/

/-- An entry of the `uploadedFileUrls` array; `openaiUrl` is the
synthesized `https://files.openai.com/files/<id>` reference. -/
structure FimUploaded where
  id : String
  fileName : String
  mimeType : String
  openaiUrl : String
  originalFile : FileRef
deriving DecidableEq, Repr

/-- Oracle for the files+images path: download, `files.create`,
`files.retrieve`, the single chat-completions call, and `files.delete`. -/
structure FimEnv where
  download : String → FetchOutcome
  fileCreate : List Nat → Except String String
  fileRetrieve : String → Except String Unit
  completionCreate : List OAIMsg → Except String (Option String × Option Usage)
  fileDelete : String → Except String Unit

/-- Upload loop of the files+images path (download, create, retrieve). -/
def fimUploadFiles (env : FimEnv) :
    List FileRef → Except String (List FimUploaded) × List AsstEffect
  | [] => (.ok [], [])
  | f :: fs =>
    match (match env.download f.url with
           | .err m => Except.error m
           | .resp ok status bytes =>
             if !ok then .error ("Failed to download file: " ++ toString status)
             else env.fileCreate bytes) with
    | .error e => (.error e, [])
    | .ok id =>
      match env.fileRetrieve id with
      | .error e => (.error e, [.uploadedFile id])
      | .ok _ =>
        let u : FimUploaded :=
          ⟨id, f.fileName, f.mimeType, "https://files.openai.com/files/" ++ id, f⟩
        match fimUploadFiles env fs with
        | (.ok rest, effs) => (.ok (u :: rest), .uploadedFile id :: effs)
        | (.error e, effs) => (.error e, .uploadedFile id :: effs)

/-- Per-message conversion of the files+images path: text part (when
truthy), then one text part per file that matches an uploaded file by
name, then the https-filtered image parts; when the parts array ends up
empty the plain string content is sent instead. -/
def fimMessage (uploaded : List FimUploaded) (msg : Msg) : OAIMsg :=
  let content : List OAIPart :=
    (if msg.content = "" then [] else [OAIPart.text msg.content]) ++
    msg.files.filterMap (fun file =>
      match uploaded.find? (fun uf => uf.originalFile.fileName == file.fileName) with
      | some uf =>
        some (OAIPart.text ("[Attached File: " ++ uf.fileName ++ " - Available at: " ++ uf.openaiUrl ++ "]"))
      | none => none) ++
    msg.images.filterMap (fun image =>
      if urlIsHttps image.url then some (OAIPart.image_url image.url "auto")
      else none)
  if content = [] then ⟨msg.role, .plain msg.content⟩ else ⟨msg.role, .parts content⟩

/-- Step 4 cleanup of the files+images path: every `files.delete` is
wrapped in its own try/catch, so a failure is logged and the loop
continues. -/
def fimCleanup (env : FimEnv) : List String → List AsstEffect
  | [] => []
  | id :: ids =>
    match env.fileDelete id with
    | .ok _ => .deletedFile id :: fimCleanup env ids
    | .error _ => fimCleanup env ids

/-- `callOpenAIWithFilesAndImages(model, messages)`: upload all files,
build hybrid messages, make one chat-completions call, then clean up the
uploaded files (failures swallowed) and return the completion. -/
def callOpenAIWithFilesAndImages (env : FimEnv) (msgs : List Msg) :
    Except String DispatchResult × List AsstEffect :=
  match fimUploadFiles env ((msgs.map (·.files)).flatten) with
  | (.error e, effs) => (.error e, effs)
  | (.ok uploaded, effs0) =>
    let openaiMessages := msgs.map (fimMessage uploaded)
    match env.completionCreate openaiMessages with
    | .error e => (.error e, effs0)
    | .ok (content, usage) =>
      let effsClean := fimCleanup env (uploaded.map (·.id))
      (.ok ⟨content.getD "", usage⟩, effs0 ++ effsClean)

/-- The routing decision at the top of `callOpenAI`: files without images
go to the Assistants API, files with images to the hybrid path, everything
else to plain chat completions. -/
def openAIRoute (msgs : List Msg) : String :=
  let hasFiles := msgs.any (fun m => !m.files.isEmpty)
  let hasImages := msgs.any (fun m => !m.images.isEmpty)
  if hasFiles && !hasImages then "assistants"
  else if hasFiles && hasImages then "filesAndImages"
  else "chatCompletions"

/-! ## Conversation orchestrator (`sendMessageV2`) -/

/-- A message document stored in the chat's `messages` subcollection. -/
structure StoredMsg where
  role : String
  content : String
  images : List Image := []
  timestamp : Nat
deriving DecidableEq, Repr

/-- Chronological comparison of stored messages by their `timestamp`. -/
def tsLE (a b : StoredMsg) : Prop := a.timestamp ≤ b.timestamp

instance : DecidableRel tsLE := fun a b => Nat.decLe a.timestamp b.timestamp

instance : IsTotal StoredMsg tsLE := ⟨fun a b => Nat.le_total a.timestamp b.timestamp⟩

instance : IsTrans StoredMsg tsLE := ⟨fun _ _ _ h1 h2 => Nat.le_trans h1 h2⟩

/-- The Firestore query
`.orderBy('timestamp','asc').limit(20)`: all stored messages in ascending
timestamp order, truncated to the first 20 documents. -/
def messagesQueryAsc (store : List StoredMsg) : List StoredMsg :=
  (List.insertionSort tsLE store).take 20

/-- The per-document mapping in `sendMessageV2`'s history loading:
`{role, content}` plus `images` when non-empty (files are never loaded
from history). -/
def storedToMsg (d : StoredMsg) : Msg := ⟨d.role, d.content, d.images, []⟩

/-- The history loading of `sendMessageV2`: the ascending-limit-20 query
mapped to conversation turns. -/
def loadHistory (store : List StoredMsg) : List Msg :=
  (messagesQueryAsc store).map storedToMsg

/-- Modelled from the spec: "the most recent 20 persisted turns of the
chat, arranged in chronological order" — the last 20 documents of the
ascending order.  Used only to compare the spec's words with
`messagesQueryAsc`. -/
def specMostRecent20 (store : List StoredMsg) : List StoredMsg :=
  let sorted := List.insertionSort tsLE store
  sorted.drop (sorted.length - 20)

/-- One entry of a project's `settings.files` array. -/
structure ProjectFile where
  name : String
  content : String
deriving DecidableEq, Repr

/-- A project's `settings` object; absent JS fields are the empty
string / empty list. -/
structure ProjectSettings where
  instructions : String := ""
  systemPrompt : String := ""
  files : List ProjectFile := []
deriving DecidableEq, Repr

/-- A project document (`sharedContext` plus `settings`). -/
structure ProjectData where
  settings : ProjectSettings := {}
  sharedContext : String := ""
deriving DecidableEq, Repr

/-- A synthesized system turn. -/
def systemMsg (c : String) : Msg := ⟨"system", c, [], []⟩

/-- The `fileContext` string built from `projectData.settings.files`:
files with truthy content rendered as `File: <name>\nContent: <content>`
and joined with blank lines. -/
def projectFileContext (p : ProjectData) : String :=
  String.intercalate "\n\n"
    ((p.settings.files.filter (fun f => f.content != "")).map
      (fun f => "File: " ++ f.name ++ "\nContent: " ++ f.content))

/-- The project-context injection of `sendMessageV2`: four conditional
`unshift`s, executed in the order instructions → shared context → system
prompt → file context (so the file context ends up first). -/
def injectProjectContext (pd : Option ProjectData) (messages0 : List Msg) : List Msg :=
  match pd with
  | none => messages0
  | some p =>
    let messages1 :=
      if p.settings.instructions ≠ "" then
        systemMsg ("Project Instructions: " ++ p.settings.instructions) :: messages0
      else messages0
    let messages2 :=
      if p.sharedContext ≠ "" then
        systemMsg ("Project Context: " ++ p.sharedContext) :: messages1
      else messages1
    let messages3 :=
      if p.settings.systemPrompt ≠ "" then
        systemMsg p.settings.systemPrompt :: messages2
      else messages2
    if p.settings.files ≠ [] then
      (if projectFileContext p ≠ "" then
         systemMsg ("Project Files:\n" ++ projectFileContext p) :: messages3
       else messages3)
    else messages3

/-- The `=== FILE: ... ===` block built for one file on the OpenAI path. -/
def fileMarkerBlock (env : ExtractEnv) (f : FileRef) : String :=
  "=== FILE: " ++ f.fileName ++ " (" ++ f.mimeType ++ ") ===\n" ++
    extractFileContent env f.url f.fileName f.mimeType ++ "\n=== END FILE ==="

/-- The file-handling step of `sendMessageV2`: with attached files, OpenAI
gets one system turn holding every file's extracted content, any other
provider gets one system turn listing names and URLs; without files,
nothing is appended. -/
def fileNotes (env : ExtractEnv) (provider : String) (files : List FileRef) : List Msg :=
  if files = [] then []
  else if provider = "openai" then
    [systemMsg ("The following files have been uploaded and their content extracted:\n\n" ++
      String.intercalate "\n\n" (files.map (fileMarkerBlock env)))]
  else
    [systemMsg ("Please download and analyze the following files:\n\n" ++
      String.intercalate "\n\n"
        (files.map (fun f => "File: " ++ f.fileName ++ " (" ++ f.mimeType ++ ")\nURL: " ++ f.url)) ++
      "\n\nNote: These files are stored in Firebase Storage with public read access. You can download them directly using the provided URLs.")]

/-- The new user turn: `{role: 'user', content}` plus `images`/`files`
when non-empty. -/
def mkUserMsg (content : String) (images : List Image) (files : List FileRef) : Msg :=
  ⟨"user", content, images, files⟩

/-- Error codes of `HttpsError` as used in `chat.ts`. -/
inductive ErrCode where
  | unauthenticated
  | permission_denied
  | not_found
  | resource_exhausted
  | invalid_argument
  | internal
deriving DecidableEq, Repr

/-- An `HttpsError`: code plus human-readable message. -/
structure HttpsErr where
  code : ErrCode
  message : String
deriving DecidableEq, Repr

/-- The chat document (`userId`, optional `projectId`). -/
structure ChatDoc where
  userId : String
  projectId : Option String := none
deriving DecidableEq, Repr

/-- The user document fields read by the quota check. -/
structure UserDoc where
  plan : String
  messagesThisMonth : Nat
deriving DecidableEq, Repr

/-- The assistant `messageData` object built (but never written to
Firestore) by `sendMessageV2`. -/
structure MessageData where
  id : String
  chatId : String
  role : String
  content : String
  model : String
  provider : String
  tokenCount : Nat
  status : String
  version : String
deriving DecidableEq, Repr

/-- The `usage` triple of the response. -/
structure UsageOut where
  promptTokens : Nat
  completionTokens : Nat
  totalTokens : Nat
deriving DecidableEq, Repr

/-- The successful response of `sendMessageV2`. -/
structure SendResponse where
  message : MessageData
  usage : UsageOut
  version : String
deriving DecidableEq, Repr

/-- The inbound request data (`model` and `provider` carry the JS
destructuring defaults). -/
structure SendReq where
  chatId : String
  content : String
  images : List Image := []
  files : List FileRef := []
  model : String := "gpt-4o-mini"
  provider : String := "openai"
deriving DecidableEq, Repr

/-- Observable orchestrator effects, in order of occurrence:
`dispatched` marks an adapter invocation inside `callAIProvider`,
`persistedAssistantTurn` a Firestore write of the assistant message, and
`incrementedUsage` the `usage.messagesThisMonth` increment. -/
inductive OEffect where
  | dispatched
  | persistedAssistantTurn
  | incrementedUsage
deriving DecidableEq, Repr

/-- The orchestrator's environment: the authenticated uid, the Firestore
documents it reads, the extractor oracle, the generated document id, and
an oracle for the provider adapters (given provider, model and the final
message sequence, the adapter either throws or returns a
`DispatchResult`). -/
structure OrchEnv where
  authUid : Option String
  chatDoc : Option ChatDoc
  userDoc : Option UserDoc
  store : List StoredMsg
  projectDoc : String → Option ProjectData
  extractEnv : ExtractEnv
  newDocId : String
  callAI : String → String → List Msg → Except String DispatchResult

/-- The provider ids `callAIProvider` routes on. -/
def knownProviders : List String :=
  ["openai", "google", "anthropic", "deepseek", "perplexity"]

/-- `callAIProvider(provider, model, messages)`: route to the adapter (an
unknown provider throws `invalid-argument`); the surrounding `catch`
rethrows every failure — including that `HttpsError` — as
`HttpsError('internal', 'AI provider error (<provider>): <message>')`.
The effect list records whether an adapter was actually invoked. -/
def callAIProvider (env : OrchEnv) (provider model : String) (messages : List Msg) :
    Except HttpsErr DispatchResult × List OEffect :=
  if provider ∈ knownProviders then
    match env.callAI provider model messages with
    | .ok r => (.ok r, [.dispatched])
    | .error m =>
      (.error ⟨.internal, "AI provider error (" ++ provider ++ "): " ++ m⟩, [.dispatched])
  else
    (.error ⟨.internal, "AI provider error (" ++ provider ++ "): Unsupported provider: " ++ provider⟩, [])

/-- The outgoing message sequence `sendMessageV2` hands to
`callAIProvider`: bounded history, project context injection (only when
the chat has a `projectId` pointing to an existing project document), the
file-handling system turn, then the new user turn. -/
def buildOutgoingMessages (env : OrchEnv) (req : SendReq) (chat : ChatDoc) : List Msg :=
  let history := loadHistory env.store
  let withProject :=
    match chat.projectId with
    | some pid => injectProjectContext (env.projectDoc pid) history
    | none => history
  (withProject ++ fileNotes env.extractEnv req.provider req.files) ++
    [mkUserMsg req.content req.images req.files]

/-- The body of `sendMessageV2`'s `try` block, given the authenticated
uid: ownership check, user lookup, quota check, message assembly, dispatch,
assistant-message construction, usage increment, response.  The effect
trace records dispatches, persistence writes (there are none) and usage
increments in order. -/
def sendMessageV2Try (env : OrchEnv) (uid : String) (req : SendReq) :
    Except HttpsErr SendResponse × List OEffect :=
  match env.chatDoc with
  | none => (.error ⟨.permission_denied, "Access denied"⟩, [])
  | some chat =>
    if chat.userId ≠ uid then (.error ⟨.permission_denied, "Access denied"⟩, [])
    else
      match env.userDoc with
      | none => (.error ⟨.not_found, "User not found"⟩, [])
      | some user =>
        if user.plan = "free" ∧ user.messagesThisMonth ≥ 10 then
          (.error ⟨.resource_exhausted, "Monthly message limit exceeded"⟩, [])
        else
          let messages := buildOutgoingMessages env req chat
          match callAIProvider env req.provider req.model messages with
          | (.error e, effs) => (.error e, effs)
          | (.ok aiResponse, effs) =>
            let usage := aiResponse.usage
            let messageData : MessageData :=
              ⟨env.newDocId, req.chatId, "assistant", aiResponse.content, req.model,
               req.provider, (usage.map (·.total_tokens)).getD 0, "sent", "v2"⟩
            (.ok ⟨messageData,
                  ⟨(usage.map (·.prompt_tokens)).getD 0,
                   (usage.map (·.completion_tokens)).getD 0,
                   (usage.map (·.total_tokens)).getD 0⟩, "v2"⟩,
             effs ++ [.incrementedUsage])

/-- `sendMessageV2`: the unauthenticated check happens outside the `try`
block; every error thrown inside it — including the quota and ownership
`HttpsError`s — is replaced by the blanket
`HttpsError('internal', 'Failed to send message')` of the `catch`. -/
def sendMessageV2 (env : OrchEnv) (req : SendReq) :
    Except HttpsErr SendResponse × List OEffect :=
  match env.authUid with
  | none => (.error ⟨.unauthenticated, "User must be authenticated"⟩, [])
  | some uid =>
    match sendMessageV2Try env uid req with
    | (.ok v, effs) => (.ok v, effs)
    | (.error _, effs) => (.error ⟨.internal, "Failed to send message"⟩, effs)

/-- Whether the Google adapter's fetch of an image resolves. -/
def googleFetchSucceeds (env : GoogleEnv) (i : Image) : Bool :=
  match env.fetchImage i.url with
  | .ok _ => true
  | .error _ => false

/-- The bytes a successful Google image fetch yields (empty on failure;
only used under `googleFetchSucceeds`). -/
def googleFetchBytes (env : GoogleEnv) (i : Image) : List Nat :=
  match env.fetchImage i.url with
  | .ok b => b
  | .error _ => []

/-- A usage object is additive when `total_tokens` is the sum of the two
component counts. -/
def usageAdditive (u : Usage) : Prop :=
  u.total_tokens = u.prompt_tokens + u.completion_tokens

/-- Restatement of the spec-side claim for C5 at one input: the dispatcher
receives no raw file reference, i.e. no outgoing turn carries a `files`
array. -/
def noRawFileReference (msgs : List Msg) : Prop :=
  ∀ m ∈ msgs, m.files = []

instance (msgs : List Msg) : Decidable (noRawFileReference msgs) :=
  inferInstanceAs (Decidable (∀ m ∈ msgs, m.files = []))

/-! ## Concrete test fixtures (used by witnesses and counterexamples) -/

/-- An extractor oracle whose fetch always succeeds with a two-byte body
that UTF-8-decodes to a small CSV text. -/
def csvExtractEnv : ExtractEnv where
  fetch := fun _ => .resp true 200 [97, 98]
  pdfParse := fun _ => .error "bad pdf"
  wordParse := fun _ => .error "bad doc"
  xlsxParse := fun _ => .error "bad xlsx"
  utf8Decode := fun _ => "a,b\n1,2"

/-- An extractor oracle whose fetch always rejects. -/
def downExtractEnv : ExtractEnv where
  fetch := fun _ => .err "network down"
  pdfParse := fun _ => .error "bad pdf"
  wordParse := fun _ => .error "bad doc"
  xlsxParse := fun _ => .error "bad xlsx"
  utf8Decode := fun _ => ""

/-- A CSV attachment. -/
def csvFile : FileRef := ⟨"https://storage/x.csv", "data.csv", "text/csv", 10⟩

/-- A chat-completions oracle that always succeeds. -/
def okChatEnv : ChatCompletionsEnv where
  create := fun _ => .ok (some "described", some ⟨2, 3, 5⟩)

/-- A message carrying one `http://` and one `https://` image. -/
def mixedImagesMsg : Msg :=
  ⟨"user", "look", [⟨"http://pics/a.png", "image/png", 1⟩, ⟨"https://pics/b.png", "image/png", 2⟩], []⟩

/-- An Anthropic oracle reporting both token counts. -/
def anthEnvOk : AnthropicEnv where
  post := fun _ _ => .ok (true, 200, "OK", ⟨["hello"], some ⟨some 3, some 4⟩⟩)

/-- A DeepSeek oracle whose provider reports a non-additive usage object. -/
def dsEnvBad : DeepSeekEnv where
  post := fun _ => .ok ⟨["hi"], some ⟨1, 2, 100⟩⟩

/-- A Google oracle for which only the `https://pics/ok.png` image fetch
succeeds. -/
def googleEnvW : GoogleEnv where
  fetchImage := fun url => if url = "https://pics/ok.png" then .ok [7] else .error "fetch failed"
  base64 := fun _ => "Bw=="
  generateMultimodal := fun _ => .ok "a photo"
  generateText := fun _ => .ok "text answer"

/-- The final turn used in the Google witness: one fetchable and one
unfetchable image. -/
def googleLastMsgW : Msg :=
  ⟨"user", "what is this", [⟨"https://pics/broken.png", "image/png", 1⟩, ⟨"https://pics/ok.png", "image/png", 2⟩], []⟩

/-- An Assistants-path oracle whose run ends in the `failed` status. -/
def asstEnvRunFails : AsstEnv where
  download := fun _ => .resp true 200 [1]
  fileCreate := fun _ => .ok "file-1"
  assistantCreate := .ok "asst-1"
  threadCreate := .ok "thread-1"
  messageCreate := .ok ()
  runCreate := .ok "run-1"
  finalRunStatus := .ok "failed"
  listAssistantText := .ok (some "unused")
  assistantDelete := .ok ()
  fileDelete := fun _ => .ok ()

/-- An Assistants-path oracle whose run completes with a text answer. -/
def asstEnvOk : AsstEnv where
  download := fun _ => .resp true 200 [1]
  fileCreate := fun _ => .ok "file-1"
  assistantCreate := .ok "asst-1"
  threadCreate := .ok "thread-1"
  messageCreate := .ok ()
  runCreate := .ok "run-1"
  finalRunStatus := .ok "completed"
  listAssistantText := .ok (some "the answer")
  assistantDelete := .ok ()
  fileDelete := fun _ => .ok ()

/-- The message list used with the Assistants fixtures: one user turn with
one attached PDF. -/
def asstMsgsW : List Msg :=
  [⟨"user", "analyze", [], [⟨"https://storage/x.pdf", "x.pdf", "application/pdf", 5⟩]⟩]

/-- A store of 21 messages with ascending timestamps `0..20`. -/
def store21 : List StoredMsg :=
  (List.range 21).map (fun k => ⟨"user", toString k, [], k⟩)

/-- A project document with all four context pieces present. -/
def projectW : ProjectData where
  settings :=
    { instructions := "be terse"
      systemPrompt := "you are a helper"
      files := [⟨"notes.txt", "alpha"⟩, ⟨"empty.txt", ""⟩] }
  sharedContext := "shared facts"

/-- An orchestrator environment whose dispatch succeeds. -/
def orchEnvOk : OrchEnv where
  authUid := some "u1"
  chatDoc := some ⟨"u1", none⟩
  userDoc := some ⟨"pro", 3⟩
  store := []
  projectDoc := fun _ => none
  extractEnv := csvExtractEnv
  newDocId := "doc-1"
  callAI := fun _ _ _ => .ok ⟨"hi there", some ⟨2, 3, 5⟩⟩

/-- An orchestrator environment whose dispatch fails. -/
def orchEnvFail : OrchEnv where
  authUid := some "u1"
  chatDoc := some ⟨"u1", none⟩
  userDoc := some ⟨"pro", 3⟩
  store := []
  projectDoc := fun _ => none
  extractEnv := csvExtractEnv
  newDocId := "doc-1"
  callAI := fun _ _ _ => .error "provider exploded"

/-- An orchestrator environment for a free-tier user at the quota limit. -/
def orchEnvQuota : OrchEnv where
  authUid := some "u1"
  chatDoc := some ⟨"u1", none⟩
  userDoc := some ⟨"free", 10⟩
  store := []
  projectDoc := fun _ => none
  extractEnv := csvExtractEnv
  newDocId := "doc-1"
  callAI := fun _ _ _ => .ok ⟨"never reached", none⟩

/-- A chat that belongs to project `p1`. -/
def chatDocProj : ChatDoc := ⟨"u1", some "p1"⟩

/-- An orchestrator environment in which the chat belongs to project `p1`
holding `projectW`. -/
def orchEnvProj : OrchEnv :=
  { orchEnvOk with
      chatDoc := some chatDocProj
      projectDoc := fun pid => if pid = "p1" then some projectW else none }

/-- A plain text-only request. -/
def plainReq : SendReq := { chatId := "c1", content := "hello" }

/-- A request attaching one CSV file, targeted at OpenAI. -/
def csvReq : SendReq := { chatId := "c1", content := "analyze this", files := [csvFile] }

/-! ## Helper lemmas -/

/-- The https filter of the chat-completions image conversion, written as
filter-then-map. -/
theorem openAIImageParts_eq_filter (images : List Image) :
    openAIImageParts images =
      (images.filter (fun i => urlIsHttps i.url)).map
        (fun i => OAIPart.image_url i.url "auto") := by
  induction images with
  | nil => rfl
  | cons i is ih =>
    cases h : urlIsHttps i.url <;>
      simp [openAIImageParts, List.filter_cons, h, ← ih]

/-- `filterMap` of a guarded function is map-after-filter. -/
theorem filterMap_if_eq_map_filter {α β : Type} (p : α → Bool) (f : α → β) (l : List α) :
    l.filterMap (fun a => if p a then some (f a) else none) = (l.filter p).map f := by
  induction l with
  | nil => rfl
  | cons a l ih =>
    cases h : p a <;> simp [List.filterMap_cons, List.filter_cons, h, ih]

/-- The Google parts conversion keeps exactly the images whose fetch
succeeds, in order. -/
theorem googleParts_eq_filter (env : GoogleEnv) (m : Msg) :
    googleParts env m =
      (if m.content = "" then [] else [GPart.text m.content]) ++
        (m.images.filter (googleFetchSucceeds env)).map
          (fun i => GPart.inlineData (env.base64 (googleFetchBytes env i)) i.mimeType) := by
  unfold googleParts
  congr 1
  have hfun : (fun image : Image =>
      match env.fetchImage image.url with
      | .error _ => none
      | .ok bytes => some (GPart.inlineData (env.base64 bytes) image.mimeType)) =
      (fun image : Image =>
        if googleFetchSucceeds env image then
          some (GPart.inlineData (env.base64 (googleFetchBytes env image)) image.mimeType)
        else none) := by
    funext image
    simp only [googleFetchSucceeds, googleFetchBytes]
    cases h : env.fetchImage image.url <;> simp [h]
  rw [hfun, filterMap_if_eq_map_filter]

/-! ## C7 — the File Content Extractor never throws and degrades to
placeholders -/

/-- C7: `extractFileContent(url, fileName, mimeType)` never throws: every
failure of the try block (network rejection, non-2xx response, parse
failure) yields the bracketed `Content extraction failed` placeholder
embedding the file name and the error reason, and a mime type outside the
supported set yields the `not supported` placeholder. -/
theorem extractFileContent_never_throws
    (env : ExtractEnv) (url name mime : String) :
    (∀ e, extractFileContentTry env url name mime = .error e →
      extractFileContent env url name mime = extractionFailedPlaceholder name e) ∧
    (∀ m, env.fetch url = .err m → extractFileContentTry env url name mime = .error m) ∧
    (∀ status bytes, env.fetch url = .resp false status bytes →
      extractFileContentTry env url name mime =
        .error ("Failed to fetch file: " ++ toString status)) ∧
    (∀ status bytes, env.fetch url = .resp true status bytes →
      mime ∉ supportedMimeTypes →
      extractFileContent env url name mime = unsupportedMimePlaceholder name mime) ∧
    (∀ status bytes e, env.fetch url = .resp true status bytes →
      mime = "application/pdf" → env.pdfParse bytes = .error e →
      extractFileContent env url name mime =
        extractionFailedPlaceholder name "Failed to extract PDF content") := by
  refine ⟨?_, ?_, ?_, ?_, ?_⟩
  · intro e he
    unfold extractFileContent
    rw [he]
  · intro m hm
    unfold extractFileContentTry
    rw [hm]
  · intro status bytes h
    unfold extractFileContentTry
    rw [h]
    rfl
  · intro status bytes h hmem
    simp only [supportedMimeTypes, List.mem_cons, List.not_mem_nil, or_false, not_or] at hmem
    obtain ⟨h1, h2, h3, h4, h5, h6, h7, h8, h9⟩ := hmem
    have htry : extractFileContentTry env url name mime =
        .ok (unsupportedMimePlaceholder name mime) := by
      unfold extractFileContentTry
      rw [h]
      simp only [Bool.not_true, Bool.false_eq_true, if_false]
    unfold extractFileContent
    rw [htry]
  · intro status bytes e h hmime hpdf
    subst hmime
    unfold extractFileContent extractFileContentTry
    rw [h]
    simp only [Bool.not_true, Bool.false_eq_true, if_false]
    unfold extractPdfContent
    rw [hpdf]

/-- Witness for C7 at concrete inputs: a rejected fetch degrades to the
failure placeholder, and a `.zip` attachment degrades to the unsupported
placeholder. -/
theorem extractFileContent_never_throws_witness :
    extractFileContent downExtractEnv "https://storage/a.pdf" "a.pdf" "application/pdf" =
      extractionFailedPlaceholder "a.pdf" "network down" ∧
    extractFileContent csvExtractEnv "https://storage/a.zip" "a.zip" "application/zip" =
      unsupportedMimePlaceholder "a.zip" "application/zip" :=
  ⟨(extractFileContent_never_throws downExtractEnv "https://storage/a.pdf" "a.pdf"
      "application/pdf").1 "network down"
      ((extractFileContent_never_throws downExtractEnv "https://storage/a.pdf" "a.pdf"
        "application/pdf").2.1 "network down" rfl),
   (extractFileContent_never_throws csvExtractEnv "https://storage/a.zip" "a.zip"
      "application/zip").2.2.2.1 200 [97, 98] rfl (by decide)⟩

/-! ## C6 — non-https images are dropped, https images kept, dispatch
proceeds -/

/-- C6: when a message's images include one with a non-https URL, the
chat-completions normalizer drops exactly the non-https images (each with
a logged warning), keeps every https image as an
`{type: image_url, url, detail: auto}` part in order, and the dispatch
proceeds on the mapped payload without raising an error for the bad
image. -/
theorem chatCompletions_drops_non_https_images
    (msg : Msg) (hne : msg.images ≠ [])
    (hbad : ∃ i ∈ msg.images, urlIsHttps i.url = false)
    (env : ChatCompletionsEnv) (msgs : List Msg)
    (content : Option String) (usage : Option Usage)
    (hcreate : env.create (msgs.map openAIChatMessage) = .ok (content, usage)) :
    openAIChatMessage msg =
      ⟨msg.role, .parts ((if msg.content = "" then [] else [OAIPart.text msg.content]) ++
        (msg.images.filter (fun i => urlIsHttps i.url)).map
          (fun i => OAIPart.image_url i.url "auto"))⟩ ∧
    callOpenAIChatCompletions env msgs = .ok ⟨content.getD "", usage⟩ := by
  constructor
  · unfold openAIChatMessage
    rw [if_neg hne, openAIImageParts_eq_filter]
  · simp only [callOpenAIChatCompletions, hcreate]

/-- Witness for C6: a message with one `http://` and one `https://` image
keeps exactly the https one, and the call dispatches successfully. -/
theorem chatCompletions_drops_non_https_images_witness :
    openAIChatMessage mixedImagesMsg =
      ⟨"user", .parts [OAIPart.text "look",
        OAIPart.image_url "https://pics/b.png" "auto"]⟩ ∧
    callOpenAIChatCompletions okChatEnv [mixedImagesMsg] =
      .ok ⟨"described", some ⟨2, 3, 5⟩⟩ := by
  obtain ⟨h1, h2⟩ := chatCompletions_drops_non_https_images mixedImagesMsg (by decide)
    (by decide) okChatEnv [mixedImagesMsg] (some "described") (some ⟨2, 3, 5⟩) rfl
  exact ⟨h1.trans (by decide), h2⟩

/-! ## C9 — adapter usage accounting -/

/-- C9 counterexample: the DeepSeek adapter forwards the provider's usage
object verbatim, so when the provider reports `prompt 1, completion 2,
total 100` the dispatched usage is neither additive nor all-zero. -/
theorem deepseek_usage_not_additive :
    ∃ r, callDeepSeek dsEnvBad [⟨"user", "hi", [], []⟩] = .ok r ∧
      r.usage = some ⟨1, 2, 100⟩ ∧ ¬(100 = 1 + 2) :=
  ⟨⟨"hi", some ⟨1, 2, 100⟩⟩, rfl, rfl, by decide⟩

/-- C9 amended: the Anthropic adapter always returns an additive usage
object (each missing count defaulting to 0); the Google adapter and the
Assistants path always return the all-zero usage; the DeepSeek,
Perplexity, and OpenAI chat-completions adapters forward the provider's
usage object (Perplexity substituting all-zero when absent), so their
dispatched usage is additive exactly when every provider-reported usage
object is additive. -/
theorem adapter_usage_policy :
    (∀ env msgs r, callAnthropic env msgs = .ok r →
       ∃ u, r.usage = some u ∧ usageAdditive u) ∧
    (∀ env msgs r n, callGoogle env msgs = (.ok r, n) → r.usage = some zeroUsage) ∧
    (∀ env msgs r effs, callOpenAIWithAssistants env msgs = (.ok (some r), effs) →
       r.usage = some zeroUsage) ∧
    (∀ env msgs r, (∀ m d, env.post m = .ok d → ∀ u ∈ d.usage, usageAdditive u) →
       callDeepSeek env msgs = .ok r → ∀ u ∈ r.usage, usageAdditive u) ∧
    (∀ env msgs r, (∀ m b s st bt d, env.post m = .ok (b, s, st, bt, d) →
        ∀ u ∈ d.usage, usageAdditive u) →
       callPerplexity env msgs = .ok r → ∀ u ∈ r.usage, usageAdditive u) ∧
    (∀ env msgs r, (∀ ms c us, env.create ms = .ok (c, us) → ∀ u ∈ us, usageAdditive u) →
       callOpenAIChatCompletions env msgs = .ok r → ∀ u ∈ r.usage, usageAdditive u) := by
  refine ⟨?_, ?_, ?_, ?_, ?_, ?_⟩
  · intro env msgs r h
    simp only [callAnthropic] at h
    split at h
    · exact absurd h (by simp)
    · split at h
      · exact absurd h (by simp)
      · injection h with h
        subst h
        exact ⟨_, rfl, by simp [usageAdditive]⟩
  · intro env msgs r n h
    unfold callGoogle at h
    split at h
    · split at h
      · simp at h
      · split at h
        · simp at h
        · simp only [Prod.mk.injEq] at h
          obtain ⟨h1, _⟩ := h
          injection h1 with h1
          rw [← h1]
    · split at h
      · simp at h
      · simp only [Prod.mk.injEq] at h
        obtain ⟨h1, _⟩ := h
        injection h1 with h1
        rw [← h1]
  · intro env msgs r effs h
    unfold callOpenAIWithAssistants at h
    repeat' split at h
    all_goals try simp_all
    all_goals
      (obtain ⟨h1, h2⟩ := h
       rw [← h1])
  · intro env msgs r hadd h
    simp only [callDeepSeek] at h
    split at h
    · exact absurd h (by simp)
    · split at h
      · exact absurd h (by simp)
      · rename_i x1 data hpost x2 c hc
        injection h with h
        subst h
        intro u hu
        exact hadd msgs data hpost u hu
  · intro env msgs r hadd h
    simp only [callPerplexity] at h
    split at h
    · exact absurd h (by simp)
    · rename_i b s st bt data hpost
      split at h
      · exact absurd h (by simp)
      · injection h with h
        subst h
        intro u hu
        simp only [Option.mem_def, Option.some.injEq] at hu
        subst hu
        cases hdu : data.usage with
        | none => simp [hdu, usageAdditive, zeroUsage]
        | some du =>
          simp only [hdu, Option.getD_some]
          exact hadd msgs b s st bt data hpost du hdu
  · intro env msgs r hadd h
    simp only [callOpenAIChatCompletions] at h
    split at h
    · exact absurd h (by simp)
    · rename_i c us hcr
      injection h with h
      subst h
      intro u hu
      exact hadd (msgs.map openAIChatMessage) c us hcr u hu

/-- Witness for the amended C9 at the Anthropic adapter: a provider
response reporting 3 input and 4 output tokens dispatches the additive
usage `⟨3, 4, 7⟩`. -/
theorem adapter_usage_policy_witness :
    ∃ u, (DispatchResult.usage ⟨"hello", some ⟨3, 4, 7⟩⟩) = some u ∧ usageAdditive u :=
  adapter_usage_policy.1 anthEnvOk [⟨"user", "hi", [], []⟩] ⟨"hello", some ⟨3, 4, 7⟩⟩
    (by decide)

/-! ## C10 — the Google multimodal branch uses only the final turn -/

/-- C10: when at least one turn carries images, the Google adapter builds
its request from the final turn alone (any two conversations sharing the
final turn produce identical calls), keeps exactly the images whose
fetch-and-encode succeeded (failed ones are skipped), and makes exactly
one `generateContent` call. -/
theorem callGoogle_multimodal_last_turn_only
    (env : GoogleEnv) (pre1 pre2 : List Msg) (m : Msg)
    (h1 : (pre1 ++ [m]).any (fun x => !x.images.isEmpty) = true)
    (h2 : (pre2 ++ [m]).any (fun x => !x.images.isEmpty) = true) :
    callGoogle env (pre1 ++ [m]) = callGoogle env (pre2 ++ [m]) ∧
    googleParts env m =
      (if m.content = "" then [] else [GPart.text m.content]) ++
        (m.images.filter (googleFetchSucceeds env)).map
          (fun i => GPart.inlineData (env.base64 (googleFetchBytes env i)) i.mimeType) ∧
    (callGoogle env (pre1 ++ [m])).2 = 1 := by
  have key : ∀ pre : List Msg, (pre ++ [m]).any (fun x => !x.images.isEmpty) = true →
      callGoogle env (pre ++ [m]) =
        (match env.generateMultimodal (googleParts env m) with
         | .error e => (.error e, 1)
         | .ok t => (.ok ⟨t, some zeroUsage⟩, 1)) := by
    intro pre hp
    unfold callGoogle
    rw [if_pos hp, List.getLast?_concat]
  refine ⟨?_, googleParts_eq_filter env m, ?_⟩
  · rw [key pre1 h1, key pre2 h2]
  · rw [key pre1 h1]
    cases env.generateMultimodal (googleParts env m) <;> rfl

/-- Witness for C10: prepending a system turn does not change the Google
call; of the final turn's two images only the fetchable one survives, and
exactly one call is made. -/
theorem callGoogle_multimodal_last_turn_only_witness :
    callGoogle googleEnvW [googleLastMsgW] =
      callGoogle googleEnvW [systemMsg "ctx", googleLastMsgW] ∧
    googleParts googleEnvW googleLastMsgW =
      [GPart.text "what is this", GPart.inlineData "Bw==" "image/png"] ∧
    (callGoogle googleEnvW [googleLastMsgW]).2 = 1 := by
  obtain ⟨ha, hb, hc⟩ := callGoogle_multimodal_last_turn_only googleEnvW [] [systemMsg "ctx"]
    googleLastMsgW (by decide) (by decide)
  refine ⟨?_, ?_, ?_⟩
  · simpa using ha
  · rw [hb]; decide
  · simpa using hc

/-! ## C3 — the bounded history window -/

/-- C3 counterexample: on a chat with 21 stored turns (timestamps 0..20)
the query `orderBy('timestamp','asc').limit(20)` keeps the EARLIEST 20
documents: the most recent turn (timestamp 20) is in the store but
excluded from the loaded history, so the history is not the most recent
20 turns. -/
theorem history_not_most_recent :
    loadHistory store21 ≠ (specMostRecent20 store21).map storedToMsg ∧
    (∀ d ∈ messagesQueryAsc store21, d.timestamp ≠ 20) ∧
    (∃ d ∈ store21, d.timestamp = 20) := by decide

/-- C3 amended: the history used to build the outgoing conversation is the
EARLIEST 20 persisted turns of the chat (ascending timestamp order,
truncated to the first 20), in chronological order. -/
theorem history_earliest20_chronological (store : List StoredMsg) :
    List.Sorted tsLE (messagesQueryAsc store) ∧
    messagesQueryAsc store = (List.insertionSort tsLE store).take 20 ∧
    List.Perm (List.insertionSort tsLE store) store ∧
    (messagesQueryAsc store).length = min 20 store.length ∧
    loadHistory store = (messagesQueryAsc store).map storedToMsg := by
  refine ⟨?_, rfl, List.perm_insertionSort tsLE store, ?_, rfl⟩
  · exact List.Pairwise.sublist (List.take_sublist 20 _)
      (List.sorted_insertionSort tsLE store)
  · simp [messagesQueryAsc, List.length_take,
      (List.perm_insertionSort tsLE store).length_eq]

/-! ## C8 — project context injection order -/

/-- C8: for a chat that belongs to a project, the injected system turns
appear at the front of the outgoing sequence in the fixed order
(a) project file context, (b) project system prompt, (c) project shared
context, (d) project instructions — each only when present, each as a
separate system turn, all before every history turn. -/
theorem project_context_injection_order (p : ProjectData) (history : List Msg)
    (env : OrchEnv) (req : SendReq) (chat : ChatDoc) (pid : String)
    (hpid : chat.projectId = some pid) (hproj : env.projectDoc pid = some p) :
    injectProjectContext (some p) history =
      (if p.settings.files ≠ [] ∧ projectFileContext p ≠ "" then
         [systemMsg ("Project Files:\n" ++ projectFileContext p)] else []) ++
      (if p.settings.systemPrompt ≠ "" then [systemMsg p.settings.systemPrompt] else []) ++
      (if p.sharedContext ≠ "" then [systemMsg ("Project Context: " ++ p.sharedContext)] else []) ++
      (if p.settings.instructions ≠ "" then
         [systemMsg ("Project Instructions: " ++ p.settings.instructions)] else []) ++
      history ∧
    buildOutgoingMessages env req chat =
      injectProjectContext (some p) (loadHistory env.store) ++
        fileNotes env.extractEnv req.provider req.files ++
        [mkUserMsg req.content req.images req.files] := by
  constructor
  · unfold injectProjectContext
    by_cases h1 : p.settings.instructions = "" <;>
    by_cases h2 : p.sharedContext = "" <;>
    by_cases h3 : p.settings.systemPrompt = "" <;>
    by_cases h4 : p.settings.files = [] <;>
    by_cases h5 : projectFileContext p = "" <;>
      simp [h1, h2, h3, h4, h5]
  · simp only [buildOutgoingMessages, hpid, hproj, List.append_assoc]

/-- Witness for C8: with every context piece present, the four injected
system turns appear in the documented order in front of the history. -/
theorem project_context_injection_order_witness :
    injectProjectContext (some projectW) [mkUserMsg "q" [] []] =
      [systemMsg "Project Files:\nFile: notes.txt\nContent: alpha",
       systemMsg "you are a helper",
       systemMsg "Project Context: shared facts",
       systemMsg "Project Instructions: be terse",
       mkUserMsg "q" [] []] := by
  have h := (project_context_injection_order projectW [mkUserMsg "q" [] []]
      orchEnvProj plainReq chatDocProj "p1" rfl rfl).1
  rw [h]
  decide

/-! ## C5 — CSV extraction for OpenAI -/

/-- `Array.join('\n\n')` of a single block is that block. -/
theorem intercalate_single (sep x : String) : String.intercalate sep [x] = x := rfl

/-- C5 counterexample: for a request with one `text/csv` file targeted at
OpenAI, the outgoing sequence still contains a turn carrying the raw file
reference (the new user turn), so the dispatcher does receive a raw file
reference — and `callOpenAI` consequently routes it to the Assistants
(raw file upload) path. -/
theorem csv_raw_file_reaches_dispatcher :
    ¬ noRawFileReference (buildOutgoingMessages orchEnvOk csvReq ⟨"u1", none⟩) ∧
    openAIRoute (buildOutgoingMessages orchEnvOk csvReq ⟨"u1", none⟩) = "assistants" := by
  decide

/-- C5 amended: the extractor is invoked on the CSV file and returns the
UTF-8 decode of the fetched bytes; exactly one synthesized system turn
wrapping that text in `=== FILE ... ===` markers is appended; but the raw
file reference is also attached to the new user turn, so the dispatcher
does receive it. -/
theorem csv_extraction_amended (env : OrchEnv) (req : SendReq) (chat : ChatDoc)
    (f : FileRef) (bytes : List Nat)
    (hp : req.provider = "openai") (hf : req.files = [f])
    (hmime : f.mimeType = "text/csv")
    (hfetch : env.extractEnv.fetch f.url = .resp true 200 bytes) :
    extractFileContent env.extractEnv f.url f.fileName f.mimeType =
      env.extractEnv.utf8Decode bytes ∧
    buildOutgoingMessages env req chat =
      (match chat.projectId with
       | some pid => injectProjectContext (env.projectDoc pid) (loadHistory env.store)
       | none => loadHistory env.store) ++
      [systemMsg ("The following files have been uploaded and their content extracted:\n\n" ++
        ("=== FILE: " ++ f.fileName ++ " (" ++ "text/csv" ++ ") ===\n" ++
          env.extractEnv.utf8Decode bytes ++ "\n=== END FILE ==="))] ++
      [mkUserMsg req.content req.images [f]] ∧
    ¬ noRawFileReference (buildOutgoingMessages env req chat) := by
  have hex : extractFileContent env.extractEnv f.url f.fileName f.mimeType =
      env.extractEnv.utf8Decode bytes := by
    unfold extractFileContent extractFileContentTry
    rw [hmime, hfetch]
    rfl
  have hex2 : extractFileContent env.extractEnv f.url f.fileName "text/csv" =
      env.extractEnv.utf8Decode bytes := hmime ▸ hex
  have hnotes : fileNotes env.extractEnv "openai" [f] =
      [systemMsg ("The following files have been uploaded and their content extracted:\n\n" ++
        ("=== FILE: " ++ f.fileName ++ " (" ++ "text/csv" ++ ") ===\n" ++
          env.extractEnv.utf8Decode bytes ++ "\n=== END FILE ==="))] := by
    unfold fileNotes
    rw [if_neg (by simp), if_pos rfl]
    simp only [List.map_cons, List.map_nil, intercalate_single, fileMarkerBlock, hmime, hex2]
  have hbuild : buildOutgoingMessages env req chat =
      (match chat.projectId with
       | some pid => injectProjectContext (env.projectDoc pid) (loadHistory env.store)
       | none => loadHistory env.store) ++
      [systemMsg ("The following files have been uploaded and their content extracted:\n\n" ++
        ("=== FILE: " ++ f.fileName ++ " (" ++ "text/csv" ++ ") ===\n" ++
          env.extractEnv.utf8Decode bytes ++ "\n=== END FILE ==="))] ++
      [mkUserMsg req.content req.images [f]] := by
    simp only [buildOutgoingMessages, hf, hp, hnotes, List.append_assoc]
  refine ⟨hex, hbuild, ?_⟩
  intro hall
  have hm := hall (mkUserMsg req.content req.images [f]) (by rw [hbuild]; simp [mkUserMsg])
  simp [mkUserMsg] at hm

/-- Witness for the amended C5 at a concrete environment: the synthesized
system turn wraps the decoded CSV text and the user turn still carries the
raw file. -/
theorem csv_extraction_amended_witness :
    extractFileContent orchEnvOk.extractEnv csvFile.url csvFile.fileName csvFile.mimeType =
      orchEnvOk.extractEnv.utf8Decode [97, 98] ∧
    buildOutgoingMessages orchEnvOk csvReq ⟨"u1", none⟩ =
      (match (⟨"u1", none⟩ : ChatDoc).projectId with
       | some pid => injectProjectContext (orchEnvOk.projectDoc pid) (loadHistory orchEnvOk.store)
       | none => loadHistory orchEnvOk.store) ++
      [systemMsg ("The following files have been uploaded and their content extracted:\n\n" ++
        ("=== FILE: " ++ csvFile.fileName ++ " (" ++ "text/csv" ++ ") ===\n" ++
          orchEnvOk.extractEnv.utf8Decode [97, 98] ++ "\n=== END FILE ==="))] ++
      [mkUserMsg csvReq.content csvReq.images [csvFile]] ∧
    ¬ noRawFileReference (buildOutgoingMessages orchEnvOk csvReq ⟨"u1", none⟩) :=
  csv_extraction_amended orchEnvOk csvReq ⟨"u1", none⟩ csvFile [97, 98] rfl rfl rfl rfl

/-! ## C4 — cleanup in the OpenAI file paths -/

/-- The upload loop emits only `uploadedFile` effects. -/
theorem uploadFiles_effects (env : AsstEnv) (files : List FileRef) :
    ∀ e ∈ (uploadFiles env files).2, ∃ id, e = AsstEffect.uploadedFile id := by
  induction files with
  | nil => simp [uploadFiles]
  | cons f fs ih =>
    unfold uploadFiles
    cases huo : uploadOneFile env f with
    | error m => simp
    | ok id =>
      cases hfs : uploadFiles env fs with
      | mk res effs =>
        rw [hfs] at ih
        cases res with
        | ok rest =>
          intro e he
          simp only [List.mem_cons] at he
          rcases he with rfl | he
          · exact ⟨id, rfl⟩
          · exact ih e he
        | error err =>
          intro e he
          simp only [List.mem_cons] at he
          rcases he with rfl | he
          · exact ⟨id, rfl⟩
          · exact ih e he

/-- The thread-message loop emits only `addedMessage` effects. -/
theorem addThreadMessages_effects (env : AsstEnv) (ms : List Msg) :
    ∀ e ∈ (addThreadMessages env ms).2, e = AsstEffect.addedMessage := by
  induction ms with
  | nil => simp [addThreadMessages]
  | cons m ms ih =>
    unfold addThreadMessages
    cases hmc : env.messageCreate with
    | error err => simp
    | ok u =>
      cases hms : addThreadMessages env ms with
      | mk res effs =>
        rw [hms] at ih
        intro e he
        simp only [List.mem_cons] at he
        rcases he with rfl | he
        · rfl
        · exact ih e he

/-- When every `files.delete` succeeds, the Assistants cleanup loop
deletes every uploaded file in order. -/
theorem deleteUploadedFiles_all_ok (env : AsstEnv)
    (hfd : ∀ i, env.fileDelete i = .ok ()) (ups : List UploadedFile) :
    deleteUploadedFiles env ups =
      (.ok (), ups.map (fun u => AsstEffect.deletedFile u.id)) := by
  induction ups with
  | nil => rfl
  | cons u us ih => simp only [deleteUploadedFiles, hfd u.id, ih, List.map_cons]

/-- The files+images upload loop does not depend on the deletion oracle. -/
theorem fimUploadFiles_fileDelete_invariant (fenv : FimEnv)
    (fdel : String → Except String Unit) (files : List FileRef) :
    fimUploadFiles { fenv with fileDelete := fdel } files = fimUploadFiles fenv files := by
  induction files with
  | nil => rfl
  | cons f fs ih => simp only [fimUploadFiles, ih]

/-- In the files+images path a failing `files.delete` never changes the
returned result (cleanup failures are logged and swallowed). -/
theorem fim_result_ignores_fileDelete (fenv : FimEnv)
    (fdel : String → Except String Unit) (fmsgs : List Msg) :
    (callOpenAIWithFilesAndImages { fenv with fileDelete := fdel } fmsgs).1 =
      (callOpenAIWithFilesAndImages fenv fmsgs).1 := by
  unfold callOpenAIWithFilesAndImages
  rw [fimUploadFiles_fileDelete_invariant]
  cases hup : fimUploadFiles fenv ((fmsgs.map (fun x => x.files)).flatten) with
  | mk res effs =>
    cases res with
    | error e => rfl
    | ok uploaded =>
      dsimp only
      cases hc : fenv.completionCreate (fmsgs.map (fimMessage uploaded)) with
      | error e => rfl
      | ok pair =>
        cases pair with
        | mk c u => rfl

/-- C4 counterexample: with one uploaded file and a run that ends in the
`failed` terminal state, the adapter throws without deleting the created
assistant or the uploaded file — cleanup does not happen on the failure
path. -/
theorem assistants_no_cleanup_on_failure :
    callOpenAIWithAssistants asstEnvRunFails asstMsgsW =
      (.error "Assistant run failed: failed",
       [.uploadedFile "file-1", .createdAssistant "asst-1", .createdThread "thread-1",
        .addedMessage, .startedRun "run-1"]) ∧
    AsstEffect.deletedAssistant "asst-1" ∉ (callOpenAIWithAssistants asstEnvRunFails asstMsgsW).2 ∧
    AsstEffect.deletedFile "file-1" ∉ (callOpenAIWithAssistants asstEnvRunFails asstMsgsW).2 := by
  decide

/-- C4 amended: in the Assistants adapter, cleanup (deleting the assistant
and the uploaded files) happens only on the completed-with-text path; on a
failed run the error is thrown with no deletion at all; a failing
assistant deletion on the success path replaces the primary result; only
the files+images path swallows cleanup failures. -/
theorem assistants_cleanup_amended (env : AsstEnv) (msgs : List Msg)
    (ups : List UploadedFile) (effsU effsM : List AsstEffect)
    (aId tId rId status : String)
    (hup : uploadFiles env ((msgs.map (·.files)).flatten) = (.ok ups, effsU))
    (ha : env.assistantCreate = .ok aId) (ht : env.threadCreate = .ok tId)
    (hm : addThreadMessages env (msgs.filter (fun m => m.role != "system")) = (.ok (), effsM))
    (hr : env.runCreate = .ok rId) (hs : env.finalRunStatus = .ok status) :
    (status ≠ "completed" →
      (callOpenAIWithAssistants env msgs).1 = .error ("Assistant run failed: " ++ status) ∧
      (∀ i, AsstEffect.deletedAssistant i ∉ (callOpenAIWithAssistants env msgs).2) ∧
      (∀ i, AsstEffect.deletedFile i ∉ (callOpenAIWithAssistants env msgs).2)) ∧
    (∀ text, status = "completed" → env.listAssistantText = .ok (some text) →
      env.assistantDelete = .ok () → (∀ i, env.fileDelete i = .ok ()) →
      (callOpenAIWithAssistants env msgs).1 = .ok (some ⟨text, some zeroUsage⟩) ∧
      AsstEffect.deletedAssistant aId ∈ (callOpenAIWithAssistants env msgs).2 ∧
      (∀ u ∈ ups, AsstEffect.deletedFile u.id ∈ (callOpenAIWithAssistants env msgs).2)) ∧
    (∀ text e, status = "completed" → env.listAssistantText = .ok (some text) →
      env.assistantDelete = .error e →
      (callOpenAIWithAssistants env msgs).1 = .error e) ∧
    (∀ fenv fmsgs fdel,
      (callOpenAIWithFilesAndImages { fenv with fileDelete := fdel } fmsgs).1 =
        (callOpenAIWithFilesAndImages fenv fmsgs).1) := by
  have hU := uploadFiles_effects env ((msgs.map (·.files)).flatten)
  rw [hup] at hU
  have hM := addThreadMessages_effects env (msgs.filter (fun m => m.role != "system"))
  rw [hm] at hM
  refine ⟨?_, ?_, ?_, fun fenv fmsgs fdel => fim_result_ignores_fileDelete fenv fdel fmsgs⟩
  · intro hst
    have hcall : callOpenAIWithAssistants env msgs =
        (.error ("Assistant run failed: " ++ status),
         effsU ++ [.createdAssistant aId] ++ [.createdThread tId] ++ effsM ++
           [.startedRun rId]) := by
      simp only [callOpenAIWithAssistants, hup, ha, ht, hm, hr, hs, if_neg hst,
        List.append_assoc]
    rw [hcall]
    refine ⟨rfl, ?_, ?_⟩
    · intro i hi
      simp only [List.append_assoc, List.mem_append, List.mem_cons, List.not_mem_nil,
        or_false] at hi
      rcases hi with hi | hi | hi | hi | hi
      · obtain ⟨id, he⟩ := hU _ hi; exact AsstEffect.noConfusion he
      · exact AsstEffect.noConfusion hi
      · exact AsstEffect.noConfusion hi
      · exact AsstEffect.noConfusion (hM _ hi)
      · exact AsstEffect.noConfusion hi
    · intro i hi
      simp only [List.append_assoc, List.mem_append, List.mem_cons, List.not_mem_nil,
        or_false] at hi
      rcases hi with hi | hi | hi | hi | hi
      · obtain ⟨id, he⟩ := hU _ hi; exact AsstEffect.noConfusion he
      · exact AsstEffect.noConfusion hi
      · exact AsstEffect.noConfusion hi
      · exact AsstEffect.noConfusion (hM _ hi)
      · exact AsstEffect.noConfusion hi
  · intro text hst htext hdel hfd
    subst hst
    have hcall : callOpenAIWithAssistants env msgs =
        (.ok (some ⟨text, some zeroUsage⟩),
         effsU ++ [.createdAssistant aId] ++ [.createdThread tId] ++ effsM ++
           [.startedRun rId] ++ [.deletedAssistant aId] ++
           ups.map (fun u => AsstEffect.deletedFile u.id)) := by
      simp only [callOpenAIWithAssistants, hup, ha, ht, hm, hr, hs, htext, hdel,
        deleteUploadedFiles_all_ok env hfd ups, eq_self_iff_true, if_true,
        List.append_assoc]
    rw [hcall]
    refine ⟨rfl, ?_, ?_⟩
    · simp
    · intro u hu
      simp only [List.append_assoc, List.mem_append, List.mem_cons, List.mem_map,
        List.not_mem_nil, or_false]
      exact Or.inr (Or.inr (Or.inr (Or.inr (Or.inr (Or.inr ⟨u, hu, rfl⟩)))))
  · intro text e hst htext hdel
    subst hst
    have hcall : callOpenAIWithAssistants env msgs =
        (.error e,
         effsU ++ [.createdAssistant aId] ++ [.createdThread tId] ++ effsM ++
           [.startedRun rId]) := by
      simp only [callOpenAIWithAssistants, hup, ha, ht, hm, hr, hs, htext, hdel,
        eq_self_iff_true, if_true, List.append_assoc]
    rw [hcall]

/-- Witness for the amended C4: a completed run with a text answer deletes
the assistant and the uploaded file and returns the answer. -/
theorem assistants_cleanup_amended_witness :
    (callOpenAIWithAssistants asstEnvOk asstMsgsW).1 =
      .ok (some ⟨"the answer", some zeroUsage⟩) ∧
    AsstEffect.deletedAssistant "asst-1" ∈ (callOpenAIWithAssistants asstEnvOk asstMsgsW).2 ∧
    (∀ u ∈ [(⟨"file-1", "x.pdf", ⟨"https://storage/x.pdf", "x.pdf", "application/pdf", 5⟩⟩ : UploadedFile)],
      AsstEffect.deletedFile u.id ∈ (callOpenAIWithAssistants asstEnvOk asstMsgsW).2) :=
  (assistants_cleanup_amended asstEnvOk asstMsgsW
      [⟨"file-1", "x.pdf", ⟨"https://storage/x.pdf", "x.pdf", "application/pdf", 5⟩⟩]
      [.uploadedFile "file-1"] [.addedMessage] "asst-1" "thread-1" "run-1" "completed"
      rfl rfl rfl rfl rfl rfl).2.1 "the answer" rfl rfl rfl (fun _ => rfl)

/-! ## C1 — dispatch, persistence and the usage increment -/

/-- C1 counterexample: on a successful dispatch the orchestrator
increments the usage counter without ever persisting the assistant turn
(its effect trace contains an increment but no persistence write), so the
increment does not come after a successful persistence of the assistant
turn. -/
theorem usage_incremented_without_persistence :
    sendMessageV2 orchEnvOk plainReq =
      (.ok ⟨⟨"doc-1", "c1", "assistant", "hi there", "gpt-4o-mini", "openai", 5, "sent", "v2"⟩,
            ⟨2, 3, 5⟩, "v2"⟩,
       [.dispatched, .incrementedUsage]) ∧
    OEffect.persistedAssistantTurn ∉ (sendMessageV2 orchEnvOk plainReq).2 ∧
    OEffect.incrementedUsage ∈ (sendMessageV2 orchEnvOk plainReq).2 := by decide

/-- C1 amended: when the dispatch succeeds, `sendMessageV2` increments the
usage counter exactly once, directly after the dispatch, and returns the
built assistant message without persisting it server-side (client-side
code persists it); when the dispatch fails, the usage counter is left
unchanged and `HttpsError('internal', 'Failed to send message')` is
surfaced. -/
theorem dispatch_gates_usage_increment (env : OrchEnv) (req : SendReq)
    (uid : String) (chat : ChatDoc) (user : UserDoc)
    (hauth : env.authUid = some uid) (hchat : env.chatDoc = some chat)
    (hown : chat.userId = uid) (huser : env.userDoc = some user)
    (hquota : ¬(user.plan = "free" ∧ user.messagesThisMonth ≥ 10))
    (hprov : req.provider ∈ knownProviders) :
    (∀ r, env.callAI req.provider req.model (buildOutgoingMessages env req chat) = .ok r →
      (sendMessageV2 env req).2 = [.dispatched, .incrementedUsage] ∧
      (sendMessageV2 env req).2.count .incrementedUsage = 1 ∧
      OEffect.persistedAssistantTurn ∉ (sendMessageV2 env req).2 ∧
      (∃ v, (sendMessageV2 env req).1 = .ok v)) ∧
    (∀ m, env.callAI req.provider req.model (buildOutgoingMessages env req chat) = .error m →
      (sendMessageV2 env req).1 = .error ⟨.internal, "Failed to send message"⟩ ∧
      (sendMessageV2 env req).2 = [.dispatched] ∧
      OEffect.incrementedUsage ∉ (sendMessageV2 env req).2) := by
  constructor
  · intro r hr
    have hc : callAIProvider env req.provider req.model (buildOutgoingMessages env req chat) =
        (.ok r, [.dispatched]) := by
      unfold callAIProvider
      rw [if_pos hprov, hr]
    have htry : sendMessageV2Try env uid req =
        (.ok ⟨⟨env.newDocId, req.chatId, "assistant", r.content, req.model, req.provider,
               (r.usage.map (·.total_tokens)).getD 0, "sent", "v2"⟩,
              ⟨(r.usage.map (·.prompt_tokens)).getD 0,
               (r.usage.map (·.completion_tokens)).getD 0,
               (r.usage.map (·.total_tokens)).getD 0⟩, "v2"⟩,
         [.dispatched, .incrementedUsage]) := by
      simp only [sendMessageV2Try, hchat, huser, hc, hown, ne_eq, not_true_eq_false,
        if_false, hquota, List.cons_append, List.nil_append]
    have hsend : sendMessageV2 env req =
        (.ok ⟨⟨env.newDocId, req.chatId, "assistant", r.content, req.model, req.provider,
               (r.usage.map (·.total_tokens)).getD 0, "sent", "v2"⟩,
              ⟨(r.usage.map (·.prompt_tokens)).getD 0,
               (r.usage.map (·.completion_tokens)).getD 0,
               (r.usage.map (·.total_tokens)).getD 0⟩, "v2"⟩,
         [.dispatched, .incrementedUsage]) := by
      simp only [sendMessageV2, hauth, htry]
    rw [hsend]
    exact ⟨rfl, rfl, by simp, ⟨_, rfl⟩⟩
  · intro m hm
    have hc : callAIProvider env req.provider req.model (buildOutgoingMessages env req chat) =
        (.error ⟨.internal, "AI provider error (" ++ req.provider ++ "): " ++ m⟩,
         [.dispatched]) := by
      unfold callAIProvider
      rw [if_pos hprov, hm]
    have htry : sendMessageV2Try env uid req =
        (.error ⟨.internal, "AI provider error (" ++ req.provider ++ "): " ++ m⟩,
         [.dispatched]) := by
      simp only [sendMessageV2Try, hchat, huser, hc, hown, ne_eq, not_true_eq_false,
        if_false, hquota]
    have hsend : sendMessageV2 env req =
        (.error ⟨.internal, "Failed to send message"⟩, [.dispatched]) := by
      simp only [sendMessageV2, hauth, htry]
    rw [hsend]
    exact ⟨rfl, rfl, by simp⟩

/-- Witness for the amended C1: in a concrete environment the success path
increments once with no persistence write, and the failure path surfaces
the internal error with no increment. -/
theorem dispatch_gates_usage_increment_witness :
    ((sendMessageV2 orchEnvOk plainReq).2 = [.dispatched, .incrementedUsage] ∧
     (sendMessageV2 orchEnvOk plainReq).2.count .incrementedUsage = 1 ∧
     OEffect.persistedAssistantTurn ∉ (sendMessageV2 orchEnvOk plainReq).2 ∧
     (∃ v, (sendMessageV2 orchEnvOk plainReq).1 = .ok v)) ∧
    ((sendMessageV2 orchEnvFail plainReq).1 =
       .error ⟨.internal, "Failed to send message"⟩ ∧
     (sendMessageV2 orchEnvFail plainReq).2 = [.dispatched] ∧
     OEffect.incrementedUsage ∉ (sendMessageV2 orchEnvFail plainReq).2) :=
  ⟨(dispatch_gates_usage_increment orchEnvOk plainReq "u1" ⟨"u1", none⟩ ⟨"pro", 3⟩
      rfl rfl rfl rfl (by decide) (by decide)).1
      ⟨"hi there", some ⟨2, 3, 5⟩⟩ rfl,
   (dispatch_gates_usage_increment orchEnvFail plainReq "u1" ⟨"u1", none⟩ ⟨"pro", 3⟩
      rfl rfl rfl rfl (by decide) (by decide)).2
      "provider exploded" rfl⟩

/-! ## C2 — the free-tier quota check -/

/-- C2: a free-tier user with `usage.messagesThisMonth = 10` triggers zero
provider calls, and the `try` block does throw
`HttpsError('resource-exhausted')` — but the function's blanket `catch`
replaces it, so the caller receives
`HttpsError('internal', 'Failed to send message')` instead of
ResourceExhausted. -/
theorem quota_error_masked_as_internal :
    (sendMessageV2Try orchEnvQuota "u1" plainReq).1 =
      .error ⟨.resource_exhausted, "Monthly message limit exceeded"⟩ ∧
    sendMessageV2 orchEnvQuota plainReq =
      (.error ⟨.internal, "Failed to send message"⟩, []) ∧
    OEffect.dispatched ∉ (sendMessageV2 orchEnvQuota plainReq).2 := by decide

end SideKick
